import Mathlib

/-!
# Verification of the house-price-be client (src/app.py)

A shallow embedding, in Lean 4, of the core pipeline of `src/app.py`:
label/token string transforms, the vocabulary tables, the geocode
resolver, the missing-field pre-submission check, the prediction client,
and the response handling in `main`.  Strings are modelled as Lean
`String` (the app's data is plain text), numeric coordinates as `ℚ`
(the source parses them as decimals and averages them), and the network
as an explicit oracle argument.  Each definition cites the `app.py`
lines it embeds.
-/

namespace HousePrice

/-! ## String transforms (app.py lines 94-104) -/

/-- Python `str.upper()` restricted to the ASCII data this app handles:
uppercase every character. -/
def pyUpper (s : String) : String := ⟨s.data.map Char.toUpper⟩

/-- One step of Python `str.title()`: a letter that follows a letter is
lowercased, a letter that starts a word is uppercased, other characters
pass through and act as word separators.  The `Bool` tracks whether the
previous character was a letter. -/
def titleChars : Bool → List Char → List Char
  | _, [] => []
  | prev, c :: cs =>
    (if c.isAlpha then (if prev then c.toLower else c.toUpper) else c) :: titleChars c.isAlpha cs

/-- Python `str.title()` (ASCII). -/
def pyTitle (s : String) : String := ⟨titleChars false s.data⟩

/-- Python `str.replace(a, b)` where `a` and `b` are single characters. -/
def replaceChar (a b : Char) (s : String) : String :=
  ⟨s.data.map (fun c => if c = a then b else c)⟩

/-- app.py 94-98, `format_for_display`: `text.replace('_', ' ').title()`,
returning falsy input (the empty string) unchanged. -/
def format_for_display (text : String) : String :=
  if text = "" then text else pyTitle (replaceChar '_' ' ' text)

/-- app.py 100-104, `format_for_api`: `text.replace(' ', '_').upper()`,
returning falsy input (the empty string) unchanged. -/
def format_for_api (text : String) : String :=
  if text = "" then text else pyUpper (replaceChar ' ' '_' text)

/-! ## Vocabulary tables (app.py lines 240-251) -/

/-- app.py 240-244, `list_apt`: apartment subtype display labels. -/
def list_apt : List String :=
  ["Apartment", "Flat Studio", "Duplex", "Penthouse", "Ground Floor",
   "Apartment Block", "Kot", "Exceptional Property", "Mixed Use Building",
   "Triplex", "Loft", "Service Flat"]

/-- app.py 245-249, `list_house`: house subtype display labels. -/
def list_house : List String :=
  ["House", "Villa", "Town House", "Chalet", "Manor House", "Mansion",
   "Bungalow", "Country Cottage", "Other Property", "Castle", "Pavilion",
   "Exceptional Property"]

/-- app.py 251, `list_type`: property type display labels. -/
def list_type : List String := ["Apartment", "House"]

/-! ## Province normalization (app.py lines 304-311 and 390) -/

/-- app.py 306-308: the 11 province display labels offered by the
province selectbox. -/
def province_options : List String :=
  ["Brussels", "Luxembourg", "Antwerp", "Flemish Brabant", "East Flanders",
   "West Flanders", "Liège", "Walloon Brabant", "Limburg", "Namur", "Hainaut"]

/-- app.py 390, `province_display.replace(" ", "")`: remove every space,
leaving the casing untouched. -/
def province_token (s : String) : String := ⟨s.data.filter (fun c => c ≠ ' ')⟩

/-- app.py 390: the `province` entry of `property_input`; `None` stays
`None`, a selected display label has its spaces removed. -/
def province_field (o : Option String) : Option String := o.map province_token

/-! ## Claim C4 -/

/-- C4: for every entry of the vocabulary tables (`list_apt`,
`list_house`, `list_type`), converting the display label to its API
token with `format_for_api` and back with `format_for_display` yields
the original label. -/
theorem C4_vocab_roundtrip :
    ∀ x ∈ list_apt ++ list_house ++ list_type,
      format_for_display (format_for_api x) = x := by decide

/-- C4 witness: the round trip at the concrete entry "Flat Studio". -/
theorem C4_vocab_roundtrip_witness :
    "Flat Studio" ∈ list_apt ++ list_house ++ list_type ∧
      format_for_display (format_for_api "Flat Studio") = "Flat Studio" :=
  ⟨by decide, C4_vocab_roundtrip "Flat Studio" (by decide)⟩

/-! ## Claim C9 -/

/-- C9 counterexample: the code only removes spaces and keeps the
original casing, so "East Flanders" normalizes to "EastFlanders", not to
the uppercase token "EASTFLANDERS" the claim states. -/
theorem C9_counterexample :
    province_token "East Flanders" ≠ "EASTFLANDERS" ∧
      province_token "East Flanders" = "EastFlanders" := by decide

/-- C9 amended: for every selected province display label, the
normalized `province` field is one of the 11 fixed labels with spaces
removed and the original casing preserved. -/
theorem C9_province_spaces_stripped :
    ∀ p ∈ province_options,
      province_field (some p) = some (province_token p) ∧
      province_token p ∈
        ["Brussels", "Luxembourg", "Antwerp", "FlemishBrabant", "EastFlanders",
         "WestFlanders", "Liège", "WalloonBrabant", "Limburg", "Namur", "Hainaut"] := by
  decide

/-- C9 witness: the amended claim at the concrete label "East Flanders". -/
theorem C9_province_spaces_stripped_witness :
    "East Flanders" ∈ province_options ∧
      (province_field (some "East Flanders") = some (province_token "East Flanders") ∧
       province_token "East Flanders" ∈
        ["Brussels", "Luxembourg", "Antwerp", "FlemishBrabant", "EastFlanders",
         "WestFlanders", "Liège", "WalloonBrabant", "Limburg", "Namur", "Hainaut"]) :=
  ⟨by decide, C9_province_spaces_stripped "East Flanders" (by decide)⟩

/-! ## Geocode resolver (app.py lines 107-116 and 141-154)

`load_geodata` reads `georef-belgium-postal-codes.csv`, splits each
row's combined "Geo Point" string into decimal `lat`/`lon` columns,
casts the post code to a string, and aggregates
`groupby("postCode")[["lat", "lon"]].mean()`.  The embedding starts
from the parsed rows (the CSV read and the point-string split are
I/O and parsing, outside every claim): `addRow`/`groupSums` perform
the group-by aggregation of per-postcode sums and counts, and
`load_geodata` divides to obtain the per-postcode mean table.
`get_location` converts its postcode to a string and looks it up in
that table; a missing key produces the warning path, which returns
`(None, None)` — modelled as `LocResult.notFound`. -/

/-- One parsed row of the geocode dataset: a postcode string together
with the latitude/longitude parsed from the "Geo Point" column. -/
structure GeoRow where
  postCode : String
  lat : ℚ
  lon : ℚ
deriving DecidableEq

/-- Fold one row into the per-postcode accumulator of
(key, lat-sum, lon-sum, row-count): the group-by step of app.py 115. -/
def addRow : List (String × ℚ × ℚ × ℕ) → GeoRow → List (String × ℚ × ℚ × ℕ)
  | [], r => [(r.postCode, r.lat, r.lon, 1)]
  | (k, a, b, n) :: rest, r =>
    if k = r.postCode then (k, a + r.lat, b + r.lon, n + 1) :: rest
    else (k, a, b, n) :: addRow rest r

/-- Aggregate every dataset row, grouped by postcode (app.py 115). -/
def groupSums (df : List GeoRow) : List (String × ℚ × ℚ × ℕ) := df.foldl addRow []

/-- Turn accumulated (lat-sum, lon-sum, count) into the (mean lat,
mean lon) pair: the `.mean()` of app.py 115. -/
def meanPair (v : ℚ × ℚ × ℕ) : ℚ × ℚ := (v.1 / v.2.2, v.2.1 / v.2.2)

/-- app.py 107-116, `load_geodata`: the postcode-indexed table of mean
coordinates returned to `get_location`. -/
def load_geodata (df : List GeoRow) : List (String × ℚ × ℚ) :=
  (groupSums df).map (fun e => (e.1, meanPair e.2))

/-- Keyed lookup in the grouped table: `postcode in geo_df.index` /
`geo_df.loc[postcode]` of app.py 146-147. -/
def tableLookup : List (String × ℚ × ℚ) → String → Option (ℚ × ℚ)
  | [], _ => none
  | (k', la, lo) :: rest, k => if k' = k then some (la, lo) else tableLookup rest k

/-- Observable outcome of `get_location` (app.py 141-154): either the
coordinate pair, or the warning path of lines 150-151, which renders
"Postcode ... not found in database" and returns `(None, None)`. -/
inductive LocResult where
  | found (lat lon : ℚ) : LocResult
  | notFound : LocResult
deriving DecidableEq

/-- app.py 141-154, `get_location`: convert the postcode to a string
(line 145), look it up in the freshly loaded grouped table, and return
the coordinates or the not-found warning. -/
def get_location (df : List GeoRow) (postcode : ℕ) : LocResult :=
  match tableLookup (load_geodata df) (toString postcode) with
  | some (la, lo) => .found la lo
  | none => .notFound

/-- First accumulator entry for a key, with its (lat-sum, lon-sum, count). -/
def findEntry : List (String × ℚ × ℚ × ℕ) → String → Option (ℚ × ℚ × ℕ)
  | [], _ => none
  | (k', a, b, n) :: rest, k => if k' = k then some (a, b, n) else findEntry rest k

/-- All dataset rows carrying the given postcode. -/
def rowsFor (df : List GeoRow) (k : String) : List GeoRow :=
  df.filter (fun r => r.postCode = k)

/-- Sum of the latitudes of a list of rows. -/
def latSum (rows : List GeoRow) : ℚ := (rows.map (fun r => r.lat)).sum

/-- Sum of the longitudes of a list of rows. -/
def lonSum (rows : List GeoRow) : ℚ := (rows.map (fun r => r.lon)).sum

/-- Effect of one row on a key's accumulated sums and count. -/
def bump (r : GeoRow) (o : Option (ℚ × ℚ × ℕ)) : ℚ × ℚ × ℕ :=
  o.elim (r.lat, r.lon, 1) (fun e => (e.1 + r.lat, e.2.1 + r.lon, e.2.2 + 1))

theorem findEntry_addRow (acc : List (String × ℚ × ℚ × ℕ)) (r : GeoRow) (k : String) :
    findEntry (addRow acc r) k =
      if k = r.postCode then some (bump r (findEntry acc k)) else findEntry acc k := by
  induction acc with
  | nil =>
    by_cases h : k = r.postCode <;>
      simp [addRow, findEntry, bump, h, Ne.symm]
  | cons e rest ih =>
    obtain ⟨k', a, b, n⟩ := e
    by_cases hk : k' = r.postCode
    · by_cases h : k = k'
      · subst h
        simp [addRow, findEntry, bump, hk]
      · by_cases hk2 : k = r.postCode
        · exact absurd (hk2.trans hk.symm) h
        · have hne : r.postCode ≠ k := fun hh => hk2 hh.symm
          simp [addRow, findEntry, hk, hk2, Ne.symm h, hne]
    · by_cases h : k = k'
      · subst h
        simp [addRow, findEntry, hk, fun hh : k = r.postCode => hk hh]
      · simp [addRow, findEntry, hk, Ne.symm h, ih]

/-- Accumulated sums for a key after folding a batch of rows, as a
function of the sums before the batch and of the matching rows. -/
def combine (o : Option (ℚ × ℚ × ℕ)) (rows : List GeoRow) : Option (ℚ × ℚ × ℕ) :=
  match o, rows with
  | some e, rows => some (e.1 + latSum rows, e.2.1 + lonSum rows, e.2.2 + rows.length)
  | none, [] => none
  | none, r :: rows => some (r.lat + latSum rows, r.lon + lonSum rows, rows.length + 1)

theorem combine_nil (o : Option (ℚ × ℚ × ℕ)) : combine o [] = o := by
  cases o <;> simp [combine, latSum, lonSum]

theorem combine_cons (o : Option (ℚ × ℚ × ℕ)) (r : GeoRow) (rows : List GeoRow) :
    combine o (r :: rows) = combine (some (bump r o)) rows := by
  cases o with
  | none =>
    simp [combine, bump, latSum, lonSum]
    omega
  | some e =>
    simp [combine, bump, latSum, lonSum]
    refine ⟨by ring, by ring, by omega⟩

theorem findEntry_foldl (df : List GeoRow) (acc : List (String × ℚ × ℚ × ℕ)) (k : String) :
    findEntry (df.foldl addRow acc) k = combine (findEntry acc k) (rowsFor df k) := by
  induction df generalizing acc with
  | nil => simp [rowsFor, combine_nil]
  | cons r df ih =>
    by_cases h : r.postCode = k
    · have hrows : rowsFor (r :: df) k = r :: rowsFor df k := by simp [rowsFor, h]
      rw [List.foldl_cons, ih, findEntry_addRow, hrows, combine_cons]
      simp [h]
    · have hrows : rowsFor (r :: df) k = rowsFor df k := by simp [rowsFor, h]
      rw [List.foldl_cons, ih, findEntry_addRow, hrows,
        if_neg (fun hh : k = r.postCode => h hh.symm)]

theorem findEntry_groupSums (df : List GeoRow) (k : String) :
    findEntry (groupSums df) k = combine none (rowsFor df k) := by
  rw [groupSums, findEntry_foldl]; rfl

theorem tableLookup_load (df : List GeoRow) (k : String) :
    tableLookup (load_geodata df) k = (findEntry (groupSums df) k).map meanPair := by
  rw [load_geodata]
  induction groupSums df with
  | nil => simp [tableLookup, findEntry]
  | cons e rest ih =>
    obtain ⟨k', a, b, n⟩ := e
    by_cases h : k' = k
    · simp [tableLookup, findEntry, h, meanPair]
    · simp [tableLookup, findEntry, h, ih]

/-- `get_location` observed through the raw dataset: the not-found
warning when no row matches, else the mean of all matching rows. -/
theorem get_location_spec (df : List GeoRow) (pc : ℕ) :
    get_location df pc =
      match rowsFor df (toString pc) with
      | [] => .notFound
      | rows =>
          .found (latSum rows / rows.length) (lonSum rows / rows.length) := by
  rw [get_location, tableLookup_load, findEntry_groupSums]
  cases h : rowsFor df (toString pc) with
  | nil => rfl
  | cons r rows =>
    simp [combine, meanPair, latSum, lonSum]

/-- A three-row dataset sharing postcode 1000, with latitudes
10, 20, 30 and longitudes 50, 60, 70. -/
def geoDf3 : List GeoRow :=
  [⟨"1000", 10, 50⟩, ⟨"1000", 20, 60⟩, ⟨"1000", 30, 70⟩]

/-! ## Claim C1 -/

/-- Claim C1: for every postcode that appears in the dataset,
`get_location` returns the arithmetic mean of the latitudes and the
arithmetic mean of the longitudes of all rows sharing that postcode;
in particular, a postcode present in three rows with latitudes
10, 20, 30 resolves to latitude 20. -/
theorem C1_geocode_mean :
    (∀ (df : List GeoRow) (pc : ℕ),
        rowsFor df (toString pc) ≠ [] →
        get_location df pc =
          .found (latSum (rowsFor df (toString pc)) / (rowsFor df (toString pc)).length)
            (lonSum (rowsFor df (toString pc)) / (rowsFor df (toString pc)).length)) ∧
      get_location geoDf3 1000 = .found 20 60 := by
  have hgen : ∀ (df : List GeoRow) (pc : ℕ),
      rowsFor df (toString pc) ≠ [] →
      get_location df pc =
        .found (latSum (rowsFor df (toString pc)) / (rowsFor df (toString pc)).length)
          (lonSum (rowsFor df (toString pc)) / (rowsFor df (toString pc)).length) := by
    intro df pc h
    rw [get_location_spec]
    cases hr : rowsFor df (toString pc) with
    | nil => exact absurd hr h
    | cons r rows => rfl
  refine ⟨hgen, ?_⟩
  have h := hgen geoDf3 1000 (by decide)
  rw [h, show rowsFor geoDf3 (toString 1000) = geoDf3 from by decide]
  norm_num [geoDf3, latSum, lonSum]

/-- Claim C1 witness: the general mean statement applied to the
three-row dataset `geoDf3` at postcode 1000. -/
theorem C1_geocode_mean_witness :
    rowsFor geoDf3 (toString 1000) ≠ [] ∧
      get_location geoDf3 1000 =
        .found (latSum (rowsFor geoDf3 (toString 1000)) / (rowsFor geoDf3 (toString 1000)).length)
          (lonSum (rowsFor geoDf3 (toString 1000)) / (rowsFor geoDf3 (toString 1000)).length) :=
  ⟨by decide, C1_geocode_mean.1 geoDf3 1000 (by decide)⟩

/-! ## Claim C6 -/

/-- Claim C6: for every postcode with no row in the geocode dataset,
`get_location` takes the warning path and returns no coordinates
(`LocResult.notFound`, i.e. the `st.warning` plus `(None, None)`
return of app.py 150-151); no exception escapes, as the body is pure
and wrapped in `try`/`except`. -/
theorem C6_geocode_notfound (df : List GeoRow) (pc : ℕ)
    (h : rowsFor df (toString pc) = []) : get_location df pc = .notFound := by
  rw [get_location_spec, h]

/-- Claim C6 witness: postcode 2000 is absent from `geoDf3`. -/
theorem C6_geocode_notfound_witness :
    rowsFor geoDf3 (toString 2000) = [] ∧ get_location geoDf3 2000 = .notFound :=
  ⟨by decide, C6_geocode_notfound geoDf3 2000 (by decide)⟩

/-! ## Claim C10

app.py has no cache around the dataset: `get_location` (line 144)
calls `load_geodata()` unconditionally on every invocation, and
`load_geodata` itself (lines 107-116) has no memoization decorator and
touches no global.  `get_location_counted` instruments `get_location`
with a counter incremented once per dataset load — exactly one load
happens inside each call. -/

/-- `get_location` paired with the number of `load_geodata` executions:
each call performs exactly one load (app.py line 144). -/
def get_location_counted (df : List GeoRow) (postcode : ℕ) (loads : ℕ) : LocResult × ℕ :=
  (get_location df postcode, loads + 1)

/-- Total number of dataset loads performed by a sequence of
`get_location` calls, starting from a given load count. -/
def run_geocode_calls (df : List GeoRow) (pcs : List ℕ) (loads : ℕ) : ℕ :=
  pcs.foldl (fun c pc => (get_location_counted df pc c).2) loads

/-- Claim C10 counterexample: two resolve calls in one process perform
two dataset loads, refuting "loaded at most once per process lifetime"
— the second call does not reuse a cached table. -/
theorem C10_counterexample : ¬ (run_geocode_calls geoDf3 [1000, 1000] 0 ≤ 1) := by decide

/-- Claim C10 amended: the dataset is loaded on every resolve call —
after any sequence of calls the number of loads has grown by exactly
the number of calls; there is no cache. -/
theorem C10_load_on_every_call (df : List GeoRow) (pcs : List ℕ) (loads : ℕ) :
    run_geocode_calls df pcs loads = loads + pcs.length := by
  induction pcs generalizing loads with
  | nil => simp [run_geocode_calls]
  | cons p ps ih =>
    have h := ih (loads + 1)
    simp only [run_geocode_calls, List.foldl_cons, get_location_counted] at h ⊢
    rw [h]
    simp
    omega

/-! ## Raw property input and the missing-field check
(app.py lines 119-125, 388-404 and 424-428)

`property_input` is a Python dict built in `main` with eleven value
entries (lines 392-404) followed by the sixteen boolean feature flags,
each set explicitly to `True` or `False` (lines 424-428).
`check_missing_fields` iterates the dict items in insertion order and
collects every key whose value is `None`.  `FieldValue` embeds the
dict's dynamically typed values; `None` is `FieldValue.null`. -/

/-- A value stored in the `property_input` dict: Python `None`, a
float, a string, an int, or a bool. -/
inductive FieldValue where
  | null : FieldValue
  | num (q : ℚ) : FieldValue
  | str (s : String) : FieldValue
  | nat (n : ℕ) : FieldValue
  | bool (b : Bool) : FieldValue
deriving DecidableEq

/-- Python's `v is None` test on a dict value. -/
def FieldValue.isNull : FieldValue → Bool
  | .null => true
  | _ => false

/-- An optional float entry of the dict. -/
def optNum : Option ℚ → FieldValue
  | none => .null
  | some q => .num q

/-- An optional string entry of the dict. -/
def optStr : Option String → FieldValue
  | none => .null
  | some s => .str s

/-- An optional int entry of the dict. -/
def optNat : Option ℕ → FieldValue
  | none => .null
  | some n => .nat n

theorem isNull_optNum (o : Option ℚ) : (optNum o).isNull = o.isNone := by
  cases o <;> rfl

theorem isNull_optStr (o : Option String) : (optStr o).isNull = o.isNone := by
  cases o <;> rfl

theorem isNull_optNat (o : Option ℕ) : (optNat o).isNull = o.isNone := by
  cases o <;> rfl

theorem isNull_bool (b : Bool) : (FieldValue.bool b).isNull = false := rfl

/-- The raw submission payload of app.py 392-404 and 424-428.  Every
value entry of the dict can in principle hold `None` (the selectbox
and postcode widgets yield `None` until a choice is made), so the
eleven value fields are `Option`; the sixteen feature flags are set
explicitly to `True`/`False` by the loop at 424-428 and are plain
`Bool`. -/
structure PropertyInput where
  habitableSurface : Option ℚ
  type : Option String
  subtype : Option String
  province : Option String
  postCode : Option ℕ
  epcScore : Option String
  bedroomCount : Option ℕ
  bathroomCount : Option ℕ
  toiletCount : Option ℕ
  terraceSurface : Option ℚ
  gardenSurface : Option ℚ
  hasAttic : Bool
  hasGarden : Bool
  hasAirConditioning : Bool
  hasArmoredDoor : Bool
  hasVisiophone : Bool
  hasTerrace : Bool
  hasOffice : Bool
  hasSwimmingPool : Bool
  hasFireplace : Bool
  hasBasement : Bool
  hasDressingRoom : Bool
  hasDiningRoom : Bool
  hasLift : Bool
  hasHeatPump : Bool
  hasPhotovoltaicPanels : Bool
  hasLivingRoom : Bool
deriving DecidableEq

/-- The `property_input` dict as its ordered `.items()` sequence: the
eleven value keys in the insertion order of lines 392-404, then the
sixteen boolean keys added by the loop at 424-428 in the order of the
`boolean_fields` list (lines 369-386). -/
def property_items (p : PropertyInput) : List (String × FieldValue) :=
  [("habitableSurface", optNum p.habitableSurface),
   ("type", optStr p.type),
   ("subtype", optStr p.subtype),
   ("province", optStr p.province),
   ("postCode", optNat p.postCode),
   ("epcScore", optStr p.epcScore),
   ("bedroomCount", optNat p.bedroomCount),
   ("bathroomCount", optNat p.bathroomCount),
   ("toiletCount", optNat p.toiletCount),
   ("terraceSurface", optNum p.terraceSurface),
   ("gardenSurface", optNum p.gardenSurface),
   ("hasAttic", .bool p.hasAttic),
   ("hasGarden", .bool p.hasGarden),
   ("hasAirConditioning", .bool p.hasAirConditioning),
   ("hasArmoredDoor", .bool p.hasArmoredDoor),
   ("hasVisiophone", .bool p.hasVisiophone),
   ("hasTerrace", .bool p.hasTerrace),
   ("hasOffice", .bool p.hasOffice),
   ("hasSwimmingPool", .bool p.hasSwimmingPool),
   ("hasFireplace", .bool p.hasFireplace),
   ("hasBasement", .bool p.hasBasement),
   ("hasDressingRoom", .bool p.hasDressingRoom),
   ("hasDiningRoom", .bool p.hasDiningRoom),
   ("hasLift", .bool p.hasLift),
   ("hasHeatPump", .bool p.hasHeatPump),
   ("hasPhotovoltaicPanels", .bool p.hasPhotovoltaicPanels),
   ("hasLivingRoom", .bool p.hasLivingRoom)]

/-- app.py 120, `[k for k, v in input.items() if v is None]`: the keys
whose value is `None`, in dict order.  Each one is rendered as a
"Missing value for" error (lines 122-123). -/
def missing_fields (p : PropertyInput) : List String :=
  ((property_items p).filter (fun kv => kv.2.isNull)).map (fun kv => kv.1)

/-- app.py 119-125, `check_missing_fields`: `False` when any field is
missing, `True` otherwise. -/
def check_missing_fields (p : PropertyInput) : Bool :=
  (missing_fields p).isEmpty

/-- The mandatory fields of the claim, in its fixed order — these are
exactly the first nine keys of the `property_input` dict. -/
def mandatory_fields : List String :=
  ["habitableSurface", "type", "subtype", "province", "postCode",
   "epcScore", "bedroomCount", "bathroomCount", "toiletCount"]

/-- Whether the named value entry of the dict is `None`. -/
def field_absent (p : PropertyInput) : String → Bool
  | "habitableSurface" => p.habitableSurface.isNone
  | "type" => p.type.isNone
  | "subtype" => p.subtype.isNone
  | "province" => p.province.isNone
  | "postCode" => p.postCode.isNone
  | "epcScore" => p.epcScore.isNone
  | "bedroomCount" => p.bedroomCount.isNone
  | "bathroomCount" => p.bathroomCount.isNone
  | "toiletCount" => p.toiletCount.isNone
  | "terraceSurface" => p.terraceSurface.isNone
  | "gardenSurface" => p.gardenSurface.isNone
  | _ => false

/-- When the two optional surface fields are present — the form always
supplies them, since their `st.number_input` widgets default to `0.0`
(lines 357-363) — the violations are exactly the absent mandatory
fields, in the fixed order. -/
theorem missing_fields_eq (p : PropertyInput)
    (ht : p.terraceSurface.isSome = true) (hg : p.gardenSurface.isSome = true) :
    missing_fields p = mandatory_fields.filter (field_absent p) := by
  obtain ⟨f1, f2, f3, f4, f5, f6, f7, f8, f9, f10, f11, b1, b2, b3, b4, b5, b6,
    b7, b8, b9, b10, b11, b12, b13, b14, b15, b16⟩ := p
  obtain ⟨t, rfl⟩ := Option.isSome_iff_exists.mp ht
  obtain ⟨g, rfl⟩ := Option.isSome_iff_exists.mp hg
  cases f1 <;> cases f2 <;> cases f3 <;> cases f4 <;> cases f5 <;> cases f6 <;>
    cases f7 <;> cases f8 <;> cases f9 <;> rfl

/-- Filtering the mandatory list by a predicate that holds at exactly
one of its members yields that single member. -/
theorem filter_eq_single (q : String → Bool) (f : String) (hf : f ∈ mandatory_fields)
    (hq : q f = true) (ho : ∀ g ∈ mandatory_fields, g ≠ f → q g = false) :
    mandatory_fields.filter q = [f] := by
  have hcongr : mandatory_fields.filter q = mandatory_fields.filter (fun g => g == f) := by
    apply List.filter_congr
    intro g hgmem
    by_cases hgf : g = f
    · subst hgf; simp [hq]
    · simp [ho g hgmem hgf, hgf]
  rw [hcongr]
  fin_cases hf <;> decide

/-! ## Claim C3 -/

/-- Claim C3: for every raw input as the form builds it (the two
non-mandatory surface fields are always present, their widgets default
to 0.0), the missing-field violations are exactly the mandatory fields
that are absent, in the fixed order habitableSurface, type, subtype,
province, postCode, epcScore, bedroomCount, bathroomCount,
toiletCount; and when exactly one mandatory field is absent the
violations are exactly that field's name. -/
theorem C3_missing_mandatory (p : PropertyInput)
    (ht : p.terraceSurface.isSome = true) (hg : p.gardenSurface.isSome = true) :
    missing_fields p = mandatory_fields.filter (field_absent p) ∧
      (∀ f ∈ mandatory_fields, field_absent p f = true →
        (∀ g ∈ mandatory_fields, g ≠ f → field_absent p g = false) →
        missing_fields p = [f]) := by
  have h1 := missing_fields_eq p ht hg
  exact ⟨h1, fun f hf hq ho => h1.trans (filter_eq_single (field_absent p) f hf hq ho)⟩

/-- An otherwise complete input whose `province` entry is `None`. -/
def p_missing_province : PropertyInput :=
  ⟨some 50, some "APARTMENT", some "DUPLEX", none, some 1000, some "B",
   some 2, some 1, some 1, some 0, some 0,
   false, false, false, false, false, false, false, false,
   false, false, false, false, false, false, false, false⟩

/-- Claim C3 witness: the characterization applied to the concrete
input missing only `province`. -/
theorem C3_missing_mandatory_witness :
    p_missing_province.terraceSurface.isSome = true ∧
      p_missing_province.gardenSurface.isSome = true ∧
      (missing_fields p_missing_province =
          mandatory_fields.filter (field_absent p_missing_province) ∧
        (∀ f ∈ mandatory_fields, field_absent p_missing_province f = true →
          (∀ g ∈ mandatory_fields, g ≠ f → field_absent p_missing_province g = false) →
          missing_fields p_missing_province = [f])) :=
  ⟨rfl, rfl, C3_missing_mandatory p_missing_province rfl rfl⟩

/-! ## Prediction client (app.py lines 128-139)

`predict_price` first runs `check_missing_fields`; only when it
returns `True` does it build the payload and execute
`requests.post(url, json=payload)` — with no `try`/`except` and no
timeout around the POST.  The network is modelled as an oracle
`net : PropertyInput → Except NetError ApiResponse`; an `Except.error`
result of the oracle is a raised `requests` exception, which
`predict_price` does not catch, so it propagates to the caller.  When
fields are missing the function shows a warning and returns `None`
without consulting the network. -/

/-- A transport-level exception raised by `requests.post` (connection
refused, timeout, DNS failure), carrying its description. -/
structure NetError where
  cause : String
deriving DecidableEq

/-- One entry of a 422 response's `detail` list: a location path and a
message (app.py 488-489). -/
structure Violation where
  loc : List String
  msg : String
deriving DecidableEq

/-- The HTTP response as `main` classifies it by status code
(app.py 438, 484, 498, 501): a 200 body with a prediction, a 422 body
with a `detail` list, a 500 body with an `error` string, or any other
status with its raw text. -/
inductive ApiResponse where
  | ok200 (prediction : ℚ) : ApiResponse
  | unprocessable (detail : List Violation) : ApiResponse
  | serverError (error : String) : ApiResponse
  | other (status : ℕ) (text : String) : ApiResponse
deriving DecidableEq

/-- app.py 128-139, `predict_price`: gate on `check_missing_fields`,
then POST and return the response.  `Except.ok none` is the
missing-fields path (warning, implicit `None` return, the network
untouched); `Except.error` is an uncaught transport exception
propagating out of the function. -/
def predict_price (net : PropertyInput → Except NetError ApiResponse)
    (data : PropertyInput) : Except NetError (Option ApiResponse) :=
  if check_missing_fields data then
    match net data with
    | .ok r => .ok (some r)
    | .error e => .error e
  else
    .ok none

/-! ## Claim C2 -/

/-- Claim C2: for every raw input with a non-empty violations list,
`predict_price` issues no POST — its result is the same for every
network oracle — and returns no response object (`none`). -/
theorem C2_no_submission_on_missing (net : PropertyInput → Except NetError ApiResponse)
    (data : PropertyInput) (h : missing_fields data ≠ []) :
    predict_price net data = .ok none := by
  have hc : check_missing_fields data = false := by
    simp [check_missing_fields, List.isEmpty_iff, h]
  simp [predict_price, hc]

/-- A network oracle that would answer every request successfully. -/
def net_ok : PropertyInput → Except NetError ApiResponse :=
  fun _ => .ok (.ok200 100)

/-- Claim C2 witness: the input missing `province` is not submitted
even to a healthy network. -/
theorem C2_no_submission_on_missing_witness :
    missing_fields p_missing_province ≠ [] ∧
      predict_price net_ok p_missing_province = .ok none :=
  ⟨by decide, C2_no_submission_on_missing net_ok p_missing_province (by decide)⟩

/-! ## Response handling in main (app.py lines 430-505) -/

/-- The pattern of Python `msg.replace("Value error,", "❌ ")`. -/
def patValueError : List Char := "Value error,".data

/-- The replacement of Python `msg.replace("Value error,", "❌ ")`. -/
def replValueError : List Char := "❌ ".data

/-- Python `str.replace`: every non-overlapping occurrence of the
pattern, scanned left to right, becomes the replacement. -/
def replaceValueErrorChars : List Char → List Char
  | [] => []
  | c :: cs =>
    if patValueError.isPrefixOf (c :: cs) then
      replValueError ++ replaceValueErrorChars ((c :: cs).drop patValueError.length)
    else c :: replaceValueErrorChars cs
termination_by s => s.length
decreasing_by
  · have h12 : patValueError.length = 12 := rfl
    simp [List.length_drop, h12]
    omega
  · simp

/-- app.py 494, `msg.replace("Value error,", "❌ ")`. -/
def replaceValueError (s : String) : String := ⟨replaceValueErrorChars s.data⟩

/-- app.py 490-495: the single message surfaced for a 422 violation.
When the location path has more than two segments, line 492 renders
the warning emoji, the third segment, a spaced colon and the raw
message; otherwise line 494-495 renders the message with every
"Value error," occurrence replaced. -/
def format_violation (e : Violation) : String :=
  if e.loc.length > 2 then
    "⚠️ " ++ e.loc.getD 2 "" ++ " : " ++ e.msg
  else
    replaceValueError e.msg

/-- app.py 484-497, the 422 branch of `main`: only `detail[0]` is
examined — one `st.error` for the first violation, or the
unknown-error message when the detail list is empty. -/
def handle_422 : List Violation → List String
  | [] => ["⚠️ Unknown error occurred"]
  | e :: _ => [format_violation e]

/-- app.py 436-502: the error messages `main` renders for a response,
by status code (the 200 branch renders the prediction card, no error
messages). -/
def main_handle_response : ApiResponse → List String
  | .ok200 _ => []
  | .unprocessable detail => handle_422 detail
  | .serverError err => ["⛔ " ++ err]
  | .other status text => ["⛔ API Error: " ++ toString status ++ " - " ++ text]

/-- app.py 431-505: the submission flow of `main` — call
`predict_price` inside `try`, dispatch on the response, and let the
generic `except Exception` handler (lines 504-505) turn any escaped
exception into the "unexpected error" message. -/
def process_submission (net : PropertyInput → Except NetError ApiResponse)
    (data : PropertyInput) : List String :=
  match predict_price net data with
  | .error e => ["❌ An unexpected error occurred: " ++ e.cause]
  | .ok none => []
  | .ok (some r) => main_handle_response r

/-- The transport failure of the claim's scenario. -/
def conn_refused : NetError := ⟨"connection refused"⟩

/-- A network oracle whose POST raises a connection-refused exception. -/
def net_down : PropertyInput → Except NetError ApiResponse :=
  fun _ => .error conn_refused

/-- A raw input with every field present. -/
def complete_input : PropertyInput :=
  ⟨some 50, some "APARTMENT", some "DUPLEX", some "Brussels", some 1000, some "B",
   some 2, some 1, some 1, some 0, some 0,
   false, false, false, false, false, false, false, false,
   false, false, false, false, false, false, false, false⟩

/-! ## Claim C5 -/

/-- Claim C5 counterexample: on a connection-refused failure the call
to `predict_price` does not return any outcome — the `requests`
exception escapes the Prediction Client (`isOk = false`, the result is
the propagated error), since line 136 wraps the POST in no
`try`/`except`; no TransportError outcome exists in the code. -/
theorem C5_counterexample :
    (predict_price net_down complete_input).isOk = false ∧
      predict_price net_down complete_input = .error conn_refused := ⟨rfl, rfl⟩

/-- Claim C5 amended: a transport failure propagates out of
`predict_price` as an exception; the caller `main` catches it in its
generic handler and renders a single "unexpected error" message
carrying the underlying cause description, so the process never
crashes, but the client returns no TransportError outcome. -/
theorem C5_transport_exception_escapes (data : PropertyInput) (err : NetError)
    (h : missing_fields data = []) :
    predict_price (fun _ => .error err) data = .error err ∧
      process_submission (fun _ => .error err) data =
        ["❌ An unexpected error occurred: " ++ err.cause] := by
  have hc : check_missing_fields data = true := by
    simp [check_missing_fields, List.isEmpty_iff, h]
  constructor
  · simp [predict_price, hc]
  · simp [process_submission, predict_price, hc]

/-- Claim C5 witness: the amended statement at the complete input and
the connection-refused failure. -/
theorem C5_transport_exception_escapes_witness :
    missing_fields complete_input = [] ∧
      (predict_price (fun _ => .error conn_refused) complete_input = .error conn_refused ∧
        process_submission (fun _ => .error conn_refused) complete_input =
          ["❌ An unexpected error occurred: " ++ conn_refused.cause]) :=
  ⟨by decide, C5_transport_exception_escapes complete_input conn_refused (by decide)⟩

/-! ## Claim C7 -/

/-- Claim C7 counterexample: a 422 detail list with two violations
yields one rendered message, not one message per violation — the code
reads only `detail[0]` (app.py 487). -/
theorem C7_counterexample :
    (handle_422 [⟨["body", "data", "province"], "bad province"⟩,
        ⟨["body", "data", "postCode"], "bad postcode"⟩]).length ≠ 2 := by decide

/-- Claim C7 amended: for every non-empty 422 detail list exactly one
message is produced, derived from the first violation only; an empty
detail list produces the generic unknown-error message. -/
theorem C7_first_violation_only :
    (∀ (e : Violation) (es : List Violation), handle_422 (e :: es) = [format_violation e]) ∧
      handle_422 [] = ["⚠️ Unknown error occurred"] :=
  ⟨fun _ _ => rfl, rfl⟩

/-! ## Claim C8 -/

/-- Claim C8 counterexample: for the violation with path
body/data/province and message "Value error, invalid", the surfaced
message is "⚠️ province : Value error, invalid" — emoji prefix, a
space before the colon, and no prefix stripping in this branch — not
the claimed "province: Value error, invalid". -/
theorem C8_counterexample :
    format_violation ⟨["body", "data", "province"], "Value error, invalid"⟩ ≠
        "province: Value error, invalid" ∧
      format_violation ⟨["body", "data", "province"], "Value error, invalid"⟩ =
        "⚠️ province : Value error, invalid" := by
  constructor
  · decide
  · decide

/-- Claim C8 amended: when the location path has more than two
segments the surfaced message is "⚠️ " then the third segment, then
" : ", then the message unmodified; otherwise it is the message with
every occurrence of "Value error," replaced by "❌ " (not merely a
stripped leading prefix). -/
theorem C8_surfaced_message_format (e : Violation) :
    (e.loc.length > 2 →
      format_violation e = "⚠️ " ++ e.loc.getD 2 "" ++ " : " ++ e.msg) ∧
    (¬ e.loc.length > 2 → format_violation e = replaceValueError e.msg) := by
  constructor <;> intro h <;> simp [format_violation, h]

/-- Claim C8 witness: both branches at concrete violations. -/
theorem C8_surfaced_message_format_witness :
    ((["body", "data", "province"] : List String).length > 2 ∧
      format_violation ⟨["body", "data", "province"], "Value error, invalid"⟩ =
        "⚠️ " ++ (["body", "data", "province"] : List String).getD 2 "" ++ " : " ++
          "Value error, invalid") ∧
    (¬ (["body"] : List String).length > 2 ∧
      format_violation ⟨["body"], "Value error, invalid"⟩ =
        replaceValueError "Value error, invalid") :=
  ⟨⟨by decide, (C8_surfaced_message_format
      ⟨["body", "data", "province"], "Value error, invalid"⟩).1 (by decide)⟩,
   ⟨by decide, (C8_surfaced_message_format
      ⟨["body"], "Value error, invalid"⟩).2 (by decide)⟩⟩

end HousePrice
